import Mathlib

/-!
Verification of the AWS daily billing summary repository.

The repository ships a PM2 process configuration (`ecosystem.config.js`)
that schedules a Python script computing 5-day rolling averages of AWS
service costs and posting a report to a chat webhook.  The configuration
file is embedded verbatim below.  The billing computation itself
(`daily_aws_billing_summary.py`) is not part of the sources available
here, so it is modelled from the specification's description of
`BillingSummaryComputer`.
-/

/- ## Data model of the billing computation -/

/-- Modelled from the spec: `daily_aws_billing_summary.py` is not under the
available sources.  A `DailyCostRecord` is `(date, service_name, cost_amount)`,
immutable, one per service per day.  Dates are day numbers, costs are exact
rationals. -/
structure DailyCostRecord where
  date : Int
  service_name : String
  cost_amount : ℚ
deriving Repr, DecidableEq

/-- Modelled from the spec: a `ServiceAggregate` carries the service name, the
recent and prior window averages, and the percent change, which is undefined
(`none`) when the prior average is zero. -/
structure ServiceAggregate where
  service_name : String
  recent_average : ℚ
  prior_average : ℚ
  percent_change : Option ℚ
deriving Repr, DecidableEq

/- ## Date windows -/

/-- Modelled from the spec: the recent window is the `windowDays`-day window
ending at the report date, i.e. the days `d` with `rd - w < d ≤ rd`. -/
def inRecentWindow (rd : Int) (w : Nat) (d : Int) : Bool :=
  decide (rd - w < d) && decide (d ≤ rd)

/-- Modelled from the spec: the prior window is the `windowDays`-day window
immediately preceding the recent one: the days `d` with `rd - 2w < d ≤ rd - w`. -/
def inPriorWindow (rd : Int) (w : Nat) (d : Int) : Bool :=
  decide (rd - 2 * w < d) && decide (d ≤ rd - w)

/-- A day lies in the combined analysis period when it lies in either window. -/
def inCombinedWindow (rd : Int) (w : Nat) (d : Int) : Bool :=
  inRecentWindow rd w d || inPriorWindow rd w d

/- ## Averages and percent change -/

/-- Mean of a list of rationals; `0` for the empty list. -/
def listAverage (l : List ℚ) : ℚ :=
  if l.length = 0 then 0 else l.sum / (l.length : ℚ)

/-- Costs of the records of service `svc` whose date satisfies `p`. -/
def windowCosts (records : List DailyCostRecord) (svc : String) (p : Int → Bool) : List ℚ :=
  (records.filter (fun r => r.service_name == svc && p r.date)).map (fun r => r.cost_amount)

/-- Costs of service `svc` inside the recent window. -/
def recentCostsOf (records : List DailyCostRecord) (rd : Int) (w : Nat) (svc : String) : List ℚ :=
  windowCosts records svc (inRecentWindow rd w)

/-- Costs of service `svc` inside the prior window. -/
def priorCostsOf (records : List DailyCostRecord) (rd : Int) (w : Nat) (svc : String) : List ℚ :=
  windowCosts records svc (inPriorWindow rd w)

/-- Modelled from the spec: percent change between the window averages,
`(recent - prior) / prior * 100`; undefined (`none`, the distinct
new-service signal) when the prior average is `0`, so no division by zero
is ever performed. -/
def percentChange (recent prior : ℚ) : Option ℚ :=
  if prior = 0 then none else some ((recent - prior) / prior * 100)

/-- Change-direction classification of a percent change. -/
inductive ChangeDirection where
  | significantIncrease
  | moderateIncrease
  | noChange
  | moderateDecrease
  | significantDecrease
deriving Repr, DecidableEq

/-- Modelled from the spec: percentage-change classification.  Above 10%
significant increase, below -10% significant decrease, positive up to and
including 10% moderate increase, negative down to and including -10%
moderate decrease, exactly 0 no change. -/
def classifyChange (pct : ℚ) : ChangeDirection :=
  if 10 < pct then ChangeDirection.significantIncrease
  else if pct < -10 then ChangeDirection.significantDecrease
  else if 0 < pct then ChangeDirection.moderateIncrease
  else if pct < 0 then ChangeDirection.moderateDecrease
  else ChangeDirection.noChange

/- ## Per-service aggregation -/

/-- Modelled from the spec: the aggregate of one service is built from the
averages of its costs over the two windows. -/
def serviceAggregate (records : List DailyCostRecord) (rd : Int) (w : Nat)
    (svc : String) : ServiceAggregate :=
  { service_name := svc
    recent_average := listAverage (recentCostsOf records rd w svc)
    prior_average := listAverage (priorCostsOf records rd w svc)
    percent_change :=
      percentChange (listAverage (recentCostsOf records rd w svc))
        (listAverage (priorCostsOf records rd w svc)) }

/-- The distinct service names of the input, in first-occurrence input order. -/
def uniqueServices (records : List DailyCostRecord) : List String :=
  (records.map (fun r => r.service_name)).foldl
    (fun acc s => if acc.contains s then acc else acc ++ [s]) []

/-- Number of distinct days inside the combined analysis period for which
service `svc` has data. -/
def serviceDayCount (records : List DailyCostRecord) (rd : Int) (w : Nat)
    (svc : String) : Nat :=
  (((records.filter (fun r => r.service_name == svc && inCombinedWindow rd w r.date)).map
      (fun r => r.date)).dedup).length

/-- One aggregate per distinct service, in input order. -/
def serviceAggregates (records : List DailyCostRecord) (rd : Int) (w : Nat) :
    List ServiceAggregate :=
  (uniqueServices records).map (serviceAggregate records rd w)

/-- Modelled from the spec: services whose recent average is below the cost
threshold are excluded before ranking. -/
def eligibleAggregates (records : List DailyCostRecord) (rd : Int) (w : Nat)
    (t : ℚ) : List ServiceAggregate :=
  (serviceAggregates records rd w).filter (fun a => decide (t ≤ a.recent_average))

/- ## Ranking -/

/-- Stable insertion into a list kept in descending `recent_average` order:
the new element is placed after every element with a strictly larger recent
average and before the first element whose recent average is at most its own. -/
def insertDesc (x : ServiceAggregate) : List ServiceAggregate → List ServiceAggregate
  | [] => [x]
  | b :: l =>
    if x.recent_average < b.recent_average then b :: insertDesc x l else x :: b :: l

/-- Stable sort by descending `recent_average`. -/
def sortDesc : List ServiceAggregate → List ServiceAggregate
  | [] => []
  | x :: l => insertDesc x (sortDesc l)

/- ## The report computation -/

/-- Result of a report computation: either a data-gap failure for some
service, or the ranked rows together with the recent-window totals. -/
inductive SummaryResult where
  | dataGap (service : String)
  | report (rows : List ServiceAggregate) (total_cost : ℚ) (average_daily_cost : ℚ)
deriving Repr, DecidableEq

/-- Total cost over the recent window, all services together. -/
def recentTotal (records : List DailyCostRecord) (rd : Int) (w : Nat) : ℚ :=
  ((records.filter (fun r => inRecentWindow rd w r.date)).map
    (fun r => r.cost_amount)).sum

/-- Modelled from the spec: `BillingSummaryComputer`.  It signals a
`DataGapError` when some service has fewer than `2 * windowDays` days of
data, and otherwise reports the eligible aggregates ranked by descending
recent average together with the recent-window total and average daily
cost. -/
def billingSummary (records : List DailyCostRecord) (rd : Int) (w : Nat)
    (t : ℚ) : SummaryResult :=
  match (uniqueServices records).find?
      (fun s => decide (serviceDayCount records rd w s < 2 * w)) with
  | some s => SummaryResult.dataGap s
  | none =>
      SummaryResult.report (sortDesc (eligibleAggregates records rd w t))
        (recentTotal records rd w)
        (if w = 0 then 0 else recentTotal records rd w / (w : ℚ))

/- ## The PM2 process configuration (`ecosystem.config.js`) -/

/-- One app entry of the PM2 `ecosystem.config.js` configuration.  The single
`env` key `NODE_ENV` is embedded as `env_NODE_ENV`; `args` is the argument
string passed to the interpreter. -/
structure PM2AppConfig where
  name : String
  script : String
  args : String
  cwd : String
  instances : Nat
  autorestart : Bool
  watch : Bool
  max_memory_restart : String
  env_NODE_ENV : String
  cron_restart : Option String
  log_file : String
  error_file : String
  out_file : String
  log_date_format : String
deriving Repr, DecidableEq

/-- The `aws-billing-summary` entry of `ecosystem.config.js`. -/
def awsBillingSummary : PM2AppConfig :=
  { name := "aws-billing-summary"
    script := "/home/felix.lu07/fr8labs-aws-billing/venv/bin/python"
    args := "/home/felix.lu07/fr8labs-aws-billing/daily_aws_billing_summary.py"
    cwd := "/home/felix.lu07/fr8labs-aws-billing"
    instances := 1
    autorestart := false
    watch := false
    max_memory_restart := "1G"
    env_NODE_ENV := "production"
    cron_restart := some "0 9 * * *"
    log_file := "/home/felix.lu07/fr8labs-aws-billing/logs/aws-billing.log"
    error_file := "/home/felix.lu07/fr8labs-aws-billing/logs/aws-billing-error.log"
    out_file := "/home/felix.lu07/fr8labs-aws-billing/logs/aws-billing-out.log"
    log_date_format := "YYYY-MM-DD HH:mm:ss Z" }

/-- The `aws-billing-manual` entry of `ecosystem.config.js`. -/
def awsBillingManual : PM2AppConfig :=
  { name := "aws-billing-manual"
    script := "/home/felix.lu07/fr8labs-aws-billing/venv/bin/python"
    args := "/home/felix.lu07/fr8labs-aws-billing/daily_aws_billing_summary.py --manual"
    cwd := "/home/felix.lu07/fr8labs-aws-billing"
    instances := 1
    autorestart := false
    watch := false
    max_memory_restart := "1G"
    env_NODE_ENV := "production"
    cron_restart := none
    log_file := "/home/felix.lu07/fr8labs-aws-billing/logs/aws-billing-manual.log"
    error_file := "/home/felix.lu07/fr8labs-aws-billing/logs/aws-billing-manual-error.log"
    out_file := "/home/felix.lu07/fr8labs-aws-billing/logs/aws-billing-manual-out.log"
    log_date_format := "YYYY-MM-DD HH:mm:ss Z" }

/-- The causes that can start a PM2-managed process. -/
inductive StartCause where
  | autoRestartAfterExit
  | cronTrigger
  | operatorStart
deriving Repr, DecidableEq

/-- Modelled from the spec: the external process supervisor starts an app
after an exit only when its `autorestart` flag is set, on a cron tick only
when a `cron_restart` expression is configured, and always on an explicit
operator action. -/
def autoStartAllowed (c : PM2AppConfig) : StartCause → Bool
  | StartCause.autoRestartAfterExit => c.autorestart
  | StartCause.cronTrigger => c.cron_restart.isSome
  | StartCause.operatorStart => true

/-- Output of one run of the billing script: the computed report and whether
the scheduled-mode label is shown. -/
structure ScriptOutput where
  summary : SummaryResult
  scheduledLabel : Bool
deriving Repr, DecidableEq

/-- Modelled from the spec: `daily_aws_billing_summary.py` is not under the
available sources.  The script takes an optional `--manual` flag that
disables the scheduled-mode label in the output but uses identical
computation logic. -/
def runBillingScript (manualFlag : Bool) (records : List DailyCostRecord)
    (rd : Int) (w : Nat) (t : ℚ) : ScriptOutput :=
  { summary := billingSummary records rd w t
    scheduledLabel := !manualFlag }

/-- Boolean check that two app entries agree on every configuration field
other than the argument string, the three log-file paths and the cron
trigger. -/
def sameExceptArgsLogsCron (a b : PM2AppConfig) : Bool :=
  a.name == b.name && a.script == b.script && a.cwd == b.cwd &&
  a.instances == b.instances && a.autorestart == b.autorestart &&
  a.watch == b.watch && a.max_memory_restart == b.max_memory_restart &&
  a.env_NODE_ENV == b.env_NODE_ENV && a.log_date_format == b.log_date_format

/-- Boolean check that two app entries agree on every configuration field
other than the app name, the argument string, the three log-file paths and
the cron trigger. -/
def sameExceptNameArgsLogsCron (a b : PM2AppConfig) : Bool :=
  a.script == b.script && a.cwd == b.cwd &&
  a.instances == b.instances && a.autorestart == b.autorestart &&
  a.watch == b.watch && a.max_memory_restart == b.max_memory_restart &&
  a.env_NODE_ENV == b.env_NODE_ENV && a.log_date_format == b.log_date_format

/- ## Lemmas about the ranking -/

theorem mem_insertDesc {a x : ServiceAggregate} {l : List ServiceAggregate} :
    a ∈ insertDesc x l ↔ a = x ∨ a ∈ l := by
  induction l with
  | nil => simp [insertDesc]
  | cons b l ih =>
      by_cases h : x.recent_average < b.recent_average
      · simp only [insertDesc, if_pos h, List.mem_cons, ih]
        tauto
      · simp only [insertDesc, if_neg h, List.mem_cons]

theorem mem_sortDesc {a : ServiceAggregate} {l : List ServiceAggregate} :
    a ∈ sortDesc l ↔ a ∈ l := by
  induction l with
  | nil => simp [sortDesc]
  | cons x l ih => simp [sortDesc, mem_insertDesc, ih]

theorem pairwise_insertDesc {x : ServiceAggregate} {l : List ServiceAggregate}
    (h : l.Pairwise (fun a b => b.recent_average ≤ a.recent_average)) :
    (insertDesc x l).Pairwise (fun a b => b.recent_average ≤ a.recent_average) := by
  induction l with
  | nil => simp [insertDesc]
  | cons b l ih =>
      rcases List.pairwise_cons.mp h with ⟨hb, hl⟩
      by_cases hx : x.recent_average < b.recent_average
      · rw [insertDesc, if_pos hx]
        refine List.pairwise_cons.mpr ⟨?_, ih hl⟩
        intro c hc
        rcases mem_insertDesc.mp hc with rfl | hcl
        · exact le_of_lt hx
        · exact hb c hcl
      · rw [insertDesc, if_neg hx]
        refine List.pairwise_cons.mpr ⟨?_, h⟩
        intro c hc
        rcases List.mem_cons.mp hc with rfl | hcl
        · exact not_lt.mp hx
        · exact le_trans (hb c hcl) (not_lt.mp hx)

theorem pairwise_sortDesc (l : List ServiceAggregate) :
    (sortDesc l).Pairwise (fun a b => b.recent_average ≤ a.recent_average) := by
  induction l with
  | nil => simp [sortDesc]
  | cons x l ih => exact pairwise_insertDesc ih

theorem filter_insertDesc (q : ℚ) (x : ServiceAggregate) (l : List ServiceAggregate) :
    (insertDesc x l).filter (fun a => decide (a.recent_average = q)) =
      if x.recent_average = q then
        x :: l.filter (fun a => decide (a.recent_average = q))
      else l.filter (fun a => decide (a.recent_average = q)) := by
  induction l with
  | nil =>
      by_cases hx : x.recent_average = q <;>
        simp [insertDesc, List.filter, hx]
  | cons b l ih =>
      by_cases hxb : x.recent_average < b.recent_average
      · rw [insertDesc, if_pos hxb]
        by_cases hx : x.recent_average = q
        · have hbq : ¬ b.recent_average = q := by
            intro hb
            rw [hx, hb] at hxb
            exact lt_irrefl q hxb
          rw [if_pos hx]
          rw [List.filter_cons_of_neg (by simpa using hbq),
            List.filter_cons_of_neg (by simpa using hbq), ih, if_pos hx]
        · rw [if_neg hx]
          by_cases hbq : b.recent_average = q
          · rw [List.filter_cons_of_pos (by simpa using hbq),
              List.filter_cons_of_pos (by simpa using hbq), ih, if_neg hx]
          · rw [List.filter_cons_of_neg (by simpa using hbq),
              List.filter_cons_of_neg (by simpa using hbq), ih, if_neg hx]
      · rw [insertDesc, if_neg hxb]
        by_cases hx : x.recent_average = q
        · rw [if_pos hx, List.filter_cons_of_pos (by simpa using hx)]
        · rw [if_neg hx, List.filter_cons_of_neg (by simpa using hx)]

theorem filter_sortDesc (q : ℚ) (l : List ServiceAggregate) :
    (sortDesc l).filter (fun a => decide (a.recent_average = q)) =
      l.filter (fun a => decide (a.recent_average = q)) := by
  induction l with
  | nil => simp [sortDesc]
  | cons x l ih =>
      rw [sortDesc, filter_insertDesc]
      by_cases hx : x.recent_average = q
      · rw [if_pos hx, ih, List.filter_cons_of_pos (by simpa using hx)]
      · rw [if_neg hx, ih, List.filter_cons_of_neg (by simpa using hx)]

/- ## Lemmas about the report computation -/

theorem billingSummary_report_rows {records : List DailyCostRecord} {rd : Int}
    {w : Nat} {t : ℚ} {rows : List ServiceAggregate} {tc ad : ℚ}
    (h : billingSummary records rd w t = SummaryResult.report rows tc ad) :
    rows = sortDesc (eligibleAggregates records rd w t) := by
  unfold billingSummary at h
  cases hf : (uniqueServices records).find?
      (fun s => decide (serviceDayCount records rd w s < 2 * w)) with
  | some s => rw [hf] at h; exact absurd h (by simp)
  | none =>
      rw [hf] at h
      exact (SummaryResult.report.injEq _ _ _ _ _ _ ▸ h).1.symm

/- ## Claim C1 -/

/-- Claim C1: the classification maps a defined percent change exactly as
specified: above 10% significant increase, below -10% significant decrease,
in (0, 10] moderate increase (so exactly 10% is moderate, not significant),
in [-10, 0) moderate decrease, and exactly 0 no change; in particular 10%
yields moderate increase, 11% significant increase, matching the
110-vs-100 and 111-vs-100 examples. -/
theorem classifyChange_thresholds :
    (∀ pct : ℚ,
      (classifyChange pct = ChangeDirection.significantIncrease ↔ 10 < pct) ∧
      (classifyChange pct = ChangeDirection.significantDecrease ↔ pct < -10) ∧
      (classifyChange pct = ChangeDirection.moderateIncrease ↔ 0 < pct ∧ pct ≤ 10) ∧
      (classifyChange pct = ChangeDirection.moderateDecrease ↔ -10 ≤ pct ∧ pct < 0) ∧
      (classifyChange pct = ChangeDirection.noChange ↔ pct = 0)) ∧
    classifyChange 10 = ChangeDirection.moderateIncrease ∧
    classifyChange 11 = ChangeDirection.significantIncrease ∧
    percentChange 110 100 = some 10 ∧
    percentChange 111 100 = some 11 := by
  refine ⟨fun pct => ?_, by norm_num [classifyChange], by norm_num [classifyChange],
    by norm_num [percentChange], by norm_num [percentChange]⟩
  unfold classifyChange
  split_ifs with h1 h2 h3 h4 <;>
    refine ⟨?_, ?_, ?_, ?_, ?_⟩ <;>
      simp_all <;> try (intros; linarith)

/- ## Claim C2 -/

/-- Claim C2: a service whose prior-window average is zero while its recent
average is positive gets the distinct undefined percent change `none`
(the new-service signal); no division by zero happens and no error or
infinity is produced. -/
theorem newService_percentChange_none (records : List DailyCostRecord) (rd : Int)
    (w : Nat) (svc : String)
    (hprior : (serviceAggregate records rd w svc).prior_average = 0)
    (_hrecent : 0 < (serviceAggregate records rd w svc).recent_average) :
    (serviceAggregate records rd w svc).percent_change = none := by
  have hpc : (serviceAggregate records rd w svc).percent_change
      = percentChange (serviceAggregate records rd w svc).recent_average
          (serviceAggregate records rd w svc).prior_average := rfl
  rw [hpc, hprior, percentChange, if_pos rfl]

/-- Five days of data for a single service, all inside the recent window of
report date 10 with a 5-day window: a freshly appearing service. -/
def newServiceRecords : List DailyCostRecord :=
  [⟨6, "AmazonS3", 50⟩, ⟨7, "AmazonS3", 50⟩, ⟨8, "AmazonS3", 50⟩,
   ⟨9, "AmazonS3", 50⟩, ⟨10, "AmazonS3", 50⟩]

/-- Concrete witness for claim C2's theorem. -/
theorem newService_percentChange_none_witness :
    (serviceAggregate newServiceRecords 10 5 "AmazonS3").prior_average = 0 ∧
    0 < (serviceAggregate newServiceRecords 10 5 "AmazonS3").recent_average ∧
    (serviceAggregate newServiceRecords 10 5 "AmazonS3").percent_change = none := by
  have hp : (serviceAggregate newServiceRecords 10 5 "AmazonS3").prior_average = 0 := by
    norm_num [serviceAggregate, priorCostsOf, windowCosts, newServiceRecords,
      inPriorWindow, listAverage]
  have hr : 0 < (serviceAggregate newServiceRecords 10 5 "AmazonS3").recent_average := by
    norm_num [serviceAggregate, recentCostsOf, windowCosts, newServiceRecords,
      inRecentWindow, listAverage]
  exact ⟨hp, hr, newService_percentChange_none newServiceRecords 10 5 "AmazonS3" hp hr⟩

/- ## Claim C3 -/

/-- Claim C3: when some service has fewer than `2 * windowDays` days of data
in the analysis period, the computation signals a data-gap error instead of
producing aggregates; and when every service has enough data but every
recent average falls below the cost threshold, it reports an empty row
sequence rather than an error. -/
theorem billingSummary_failure_modes (records : List DailyCostRecord) (rd : Int)
    (w : Nat) (t : ℚ) :
    ((∃ svc, svc ∈ uniqueServices records ∧ serviceDayCount records rd w svc < 2 * w) →
      ∃ s, billingSummary records rd w t = SummaryResult.dataGap s ∧
        serviceDayCount records rd w s < 2 * w) ∧
    ((∀ svc ∈ uniqueServices records, 2 * w ≤ serviceDayCount records rd w svc) →
      (∀ a ∈ serviceAggregates records rd w, a.recent_average < t) →
      ∃ tc ad, billingSummary records rd w t = SummaryResult.report [] tc ad) := by
  constructor
  · rintro ⟨svc, hmem, hcnt⟩
    cases hf : (uniqueServices records).find?
        (fun s => decide (serviceDayCount records rd w s < 2 * w)) with
    | none =>
        have := List.find?_eq_none.mp hf svc hmem
        exact absurd (decide_eq_true hcnt) this
    | some s =>
        refine ⟨s, ?_, ?_⟩
        · unfold billingSummary
          rw [hf]
        · have hs := List.find?_some hf
          simpa using hs
  · intro hall hbelow
    have hf : (uniqueServices records).find?
        (fun s => decide (serviceDayCount records rd w s < 2 * w)) = none := by
      refine List.find?_eq_none.mpr ?_
      intro x hx
      simpa using not_lt.mpr (hall x hx)
    have helig : eligibleAggregates records rd w t = [] := by
      refine List.filter_eq_nil_iff.mpr ?_
      intro a ha
      simpa using not_le.mpr (hbelow a ha)
    refine ⟨recentTotal records rd w,
      if w = 0 then 0 else recentTotal records rd w / (w : ℚ), ?_⟩
    unfold billingSummary
    rw [hf, helig]
    rfl

/-- Only three days of data for the single service: a data gap for a 5-day
window. -/
def gapRecords : List DailyCostRecord :=
  [⟨8, "AmazonEC2", 20⟩, ⟨9, "AmazonEC2", 20⟩, ⟨10, "AmazonEC2", 20⟩]

/-- Ten days of data at cost 5 for the single service: below a threshold of
1000 on the recent window. -/
def allBelowRecords : List DailyCostRecord :=
  [⟨1, "AmazonEC2", 5⟩, ⟨2, "AmazonEC2", 5⟩, ⟨3, "AmazonEC2", 5⟩,
   ⟨4, "AmazonEC2", 5⟩, ⟨5, "AmazonEC2", 5⟩, ⟨6, "AmazonEC2", 5⟩,
   ⟨7, "AmazonEC2", 5⟩, ⟨8, "AmazonEC2", 5⟩, ⟨9, "AmazonEC2", 5⟩,
   ⟨10, "AmazonEC2", 5⟩]

/-- Concrete witness for claim C3's theorem, exercising both failure modes. -/
theorem billingSummary_failure_modes_witness :
    (∃ svc, svc ∈ uniqueServices gapRecords ∧
      serviceDayCount gapRecords 10 5 svc < 2 * 5) ∧
    (∃ s, billingSummary gapRecords 10 5 10 = SummaryResult.dataGap s ∧
      serviceDayCount gapRecords 10 5 s < 2 * 5) ∧
    (∀ svc ∈ uniqueServices allBelowRecords,
      2 * 5 ≤ serviceDayCount allBelowRecords 10 5 svc) ∧
    (∀ a ∈ serviceAggregates allBelowRecords 10 5, a.recent_average < 1000) ∧
    (∃ tc ad, billingSummary allBelowRecords 10 5 1000 = SummaryResult.report [] tc ad) := by
  have h1 : ∃ svc, svc ∈ uniqueServices gapRecords ∧
      serviceDayCount gapRecords 10 5 svc < 2 * 5 :=
    ⟨"AmazonEC2", by decide, by decide⟩
  have h2 : ∀ svc ∈ uniqueServices allBelowRecords,
      2 * 5 ≤ serviceDayCount allBelowRecords 10 5 svc := by decide
  have haggs : serviceAggregates allBelowRecords 10 5 =
      [serviceAggregate allBelowRecords 10 5 "AmazonEC2"] := by
    have hu : uniqueServices allBelowRecords = ["AmazonEC2"] := by decide
    rw [serviceAggregates, hu]
    rfl
  have h3 : ∀ a ∈ serviceAggregates allBelowRecords 10 5, a.recent_average < 1000 := by
    rw [haggs]
    intro a ha
    rcases List.mem_singleton.mp ha with rfl
    norm_num [serviceAggregate, recentCostsOf, windowCosts, allBelowRecords,
      inRecentWindow, listAverage]
  exact ⟨h1, (billingSummary_failure_modes gapRecords 10 5 10).1 h1, h2, h3,
    (billingSummary_failure_modes allBelowRecords 10 5 1000).2 h2 h3⟩

/- ## Claim C4 -/

/-- Claim C4: the report rows contain only services whose recent average
meets the cost threshold (filtering precedes ranking), are sorted in
descending order of recent average, strictly descending wherever the
values are distinct, and the sort is stable: for every value `q` the rows
with recent average `q` appear exactly in the order in which the
threshold-filtered aggregates occur in input order. -/
theorem billingSummary_rows_ordered (records : List DailyCostRecord) (rd : Int)
    (w : Nat) (t : ℚ) (rows : List ServiceAggregate) (tc ad : ℚ)
    (h : billingSummary records rd w t = SummaryResult.report rows tc ad) :
    (∀ a ∈ rows, t ≤ a.recent_average) ∧
    rows.Pairwise (fun a b => b.recent_average ≤ a.recent_average) ∧
    rows.Pairwise (fun a b =>
      a.recent_average ≠ b.recent_average → b.recent_average < a.recent_average) ∧
    (∀ q : ℚ, rows.filter (fun a => decide (a.recent_average = q)) =
      (eligibleAggregates records rd w t).filter
        (fun a => decide (a.recent_average = q))) := by
  have hrows := billingSummary_report_rows h
  subst hrows
  refine ⟨?_, pairwise_sortDesc _, ?_, fun q => filter_sortDesc q _⟩
  · intro a ha
    have hmem : a ∈ eligibleAggregates records rd w t := mem_sortDesc.mp ha
    have hp := List.of_mem_filter hmem
    simpa using hp
  · refine (pairwise_sortDesc _).imp ?_
    intro a b hab hne
    exact lt_of_le_of_ne hab (fun e => hne e.symm)

/-- Two services with ten days of data each: `Beta` at cost 20 per day
(listed first) and `Alpha` at cost 30 per day. -/
def c4Records : List DailyCostRecord :=
  [⟨1, "Beta", 20⟩, ⟨2, "Beta", 20⟩, ⟨3, "Beta", 20⟩, ⟨4, "Beta", 20⟩,
   ⟨5, "Beta", 20⟩, ⟨6, "Beta", 20⟩, ⟨7, "Beta", 20⟩, ⟨8, "Beta", 20⟩,
   ⟨9, "Beta", 20⟩, ⟨10, "Beta", 20⟩,
   ⟨1, "Alpha", 30⟩, ⟨2, "Alpha", 30⟩, ⟨3, "Alpha", 30⟩, ⟨4, "Alpha", 30⟩,
   ⟨5, "Alpha", 30⟩, ⟨6, "Alpha", 30⟩, ⟨7, "Alpha", 30⟩, ⟨8, "Alpha", 30⟩,
   ⟨9, "Alpha", 30⟩, ⟨10, "Alpha", 30⟩]

/-- The aggregate of `Beta` in `c4Records`. -/
def c4AggBeta : ServiceAggregate := serviceAggregate c4Records 10 5 "Beta"

/-- The aggregate of `Alpha` in `c4Records`. -/
def c4AggAlpha : ServiceAggregate := serviceAggregate c4Records 10 5 "Alpha"

theorem c4AggBeta_recent : c4AggBeta.recent_average = 20 := by
  have hc : recentCostsOf c4Records 10 5 "Beta" = [20, 20, 20, 20, 20] := by decide
  have hr : c4AggBeta.recent_average = listAverage (recentCostsOf c4Records 10 5 "Beta") := rfl
  rw [hr, hc]
  norm_num [listAverage]

theorem c4AggAlpha_recent : c4AggAlpha.recent_average = 30 := by
  have hc : recentCostsOf c4Records 10 5 "Alpha" = [30, 30, 30, 30, 30] := by decide
  have hr : c4AggAlpha.recent_average = listAverage (recentCostsOf c4Records 10 5 "Alpha") := rfl
  rw [hr, hc]
  norm_num [listAverage]

theorem c4_report_eq : billingSummary c4Records 10 5 10 =
    SummaryResult.report [c4AggAlpha, c4AggBeta] (recentTotal c4Records 10 5)
      (recentTotal c4Records 10 5 / (5 : ℚ)) := by
  have hu : uniqueServices c4Records = ["Beta", "Alpha"] := by decide
  have hfind : (uniqueServices c4Records).find?
      (fun s => decide (serviceDayCount c4Records 10 5 s < 2 * 5)) = none := by decide
  have haggs : serviceAggregates c4Records 10 5 = [c4AggBeta, c4AggAlpha] := by
    rw [serviceAggregates, hu]
    rfl
  have helig : eligibleAggregates c4Records 10 5 10 = [c4AggBeta, c4AggAlpha] := by
    rw [eligibleAggregates, haggs]
    rw [List.filter_cons_of_pos (by rw [decide_eq_true_eq, c4AggBeta_recent]; norm_num),
      List.filter_cons_of_pos (by rw [decide_eq_true_eq, c4AggAlpha_recent]; norm_num),
      List.filter_nil]
  have hsort : sortDesc [c4AggBeta, c4AggAlpha] = [c4AggAlpha, c4AggBeta] := by
    have hlt : c4AggBeta.recent_average < c4AggAlpha.recent_average := by
      rw [c4AggBeta_recent, c4AggAlpha_recent]
      norm_num
    simp [sortDesc, insertDesc, hlt]
  unfold billingSummary
  rw [hfind, helig, hsort]
  rfl

/-- Concrete witness for claim C4's theorem: two eligible services ranked in
descending order of recent average. -/
theorem billingSummary_rows_ordered_witness :
    billingSummary c4Records 10 5 10 =
      SummaryResult.report [c4AggAlpha, c4AggBeta] (recentTotal c4Records 10 5)
        (recentTotal c4Records 10 5 / (5 : ℚ)) ∧
    ((∀ a ∈ [c4AggAlpha, c4AggBeta], (10 : ℚ) ≤ a.recent_average) ∧
     ([c4AggAlpha, c4AggBeta] : List ServiceAggregate).Pairwise
       (fun a b => b.recent_average ≤ a.recent_average) ∧
     ([c4AggAlpha, c4AggBeta] : List ServiceAggregate).Pairwise
       (fun a b =>
         a.recent_average ≠ b.recent_average → b.recent_average < a.recent_average) ∧
     (∀ q : ℚ, ([c4AggAlpha, c4AggBeta] : List ServiceAggregate).filter
         (fun a => decide (a.recent_average = q)) =
       (eligibleAggregates c4Records 10 5 10).filter
         (fun a => decide (a.recent_average = q)))) :=
  ⟨c4_report_eq,
    billingSummary_rows_ordered c4Records 10 5 10 _ _ _ c4_report_eq⟩

/- ## Claim C7 -/

/-- Claim C7: a service appears in the report exactly when its recent
average is at least the cost threshold; below the threshold it is
excluded, so 9.99 under the default threshold 10 is excluded. -/
theorem billingSummary_threshold (records : List DailyCostRecord) (rd : Int)
    (w : Nat) (t : ℚ) (rows : List ServiceAggregate) (tc ad : ℚ)
    (h : billingSummary records rd w t = SummaryResult.report rows tc ad) :
    ∀ a, a ∈ rows ↔ a ∈ serviceAggregates records rd w ∧ t ≤ a.recent_average := by
  have hrows := billingSummary_report_rows h
  subst hrows
  intro a
  simp [mem_sortDesc, eligibleAggregates, List.mem_filter]

/-- One service with ten days of data at cost 9.99 per day. -/
def c7Records : List DailyCostRecord :=
  [⟨1, "Cheap", 999/100⟩, ⟨2, "Cheap", 999/100⟩, ⟨3, "Cheap", 999/100⟩,
   ⟨4, "Cheap", 999/100⟩, ⟨5, "Cheap", 999/100⟩, ⟨6, "Cheap", 999/100⟩,
   ⟨7, "Cheap", 999/100⟩, ⟨8, "Cheap", 999/100⟩, ⟨9, "Cheap", 999/100⟩,
   ⟨10, "Cheap", 999/100⟩]

theorem c7_recent_average :
    (serviceAggregate c7Records 10 5 "Cheap").recent_average = 999/100 := by
  norm_num [serviceAggregate, recentCostsOf, windowCosts, c7Records,
    inRecentWindow, listAverage]

theorem c7_report_eq : billingSummary c7Records 10 5 10 =
    SummaryResult.report [] (recentTotal c7Records 10 5)
      (recentTotal c7Records 10 5 / (5 : ℚ)) := by
  have hu : uniqueServices c7Records = ["Cheap"] := by decide
  have hfind : (uniqueServices c7Records).find?
      (fun s => decide (serviceDayCount c7Records 10 5 s < 2 * 5)) = none := by decide
  have haggs : serviceAggregates c7Records 10 5 =
      [serviceAggregate c7Records 10 5 "Cheap"] := by
    rw [serviceAggregates, hu]
    rfl
  have helig : eligibleAggregates c7Records 10 5 10 = [] := by
    rw [eligibleAggregates, haggs]
    rw [List.filter_cons_of_neg (by rw [decide_eq_true_eq, c7_recent_average]; norm_num),
      List.filter_nil]
  unfold billingSummary
  rw [hfind, helig]
  rfl

/-- Concrete witness for claim C7's theorem: a 9.99 recent average under the
default threshold 10 is excluded, and membership is exactly the threshold
test. -/
theorem billingSummary_threshold_witness :
    (serviceAggregate c7Records 10 5 "Cheap").recent_average = 999/100 ∧
    billingSummary c7Records 10 5 10 =
      SummaryResult.report [] (recentTotal c7Records 10 5)
        (recentTotal c7Records 10 5 / (5 : ℚ)) ∧
    (∀ a, a ∈ ([] : List ServiceAggregate) ↔
      a ∈ serviceAggregates c7Records 10 5 ∧ (10 : ℚ) ≤ a.recent_average) :=
  ⟨c7_recent_average, c7_report_eq,
    billingSummary_threshold c7Records 10 5 10 _ _ _ c7_report_eq⟩

/- ## Claim C5 -/

/-- Ten days of uniform zero cost for one service. -/
def uniformZeroRecords : List DailyCostRecord :=
  [⟨1, "Idle", 0⟩, ⟨2, "Idle", 0⟩, ⟨3, "Idle", 0⟩, ⟨4, "Idle", 0⟩,
   ⟨5, "Idle", 0⟩, ⟨6, "Idle", 0⟩, ⟨7, "Idle", 0⟩, ⟨8, "Idle", 0⟩,
   ⟨9, "Idle", 0⟩, ⟨10, "Idle", 0⟩]

/-- Counterexample to claim C5 as stated: a service with the same daily cost
`C = 0` on every day of both windows has percent change `none` (the
undefined new-service value), not `0`, because its prior average is zero. -/
theorem uniform_cost_counterexample :
    recentCostsOf uniformZeroRecords 10 5 "Idle" = List.replicate 5 0 ∧
    priorCostsOf uniformZeroRecords 10 5 "Idle" = List.replicate 5 0 ∧
    (serviceAggregate uniformZeroRecords 10 5 "Idle").percent_change = none ∧
    decide ((serviceAggregate uniformZeroRecords 10 5 "Idle").percent_change
      = some 0) = false := by
  have h1 : recentCostsOf uniformZeroRecords 10 5 "Idle" = List.replicate 5 0 := by decide
  have h2 : priorCostsOf uniformZeroRecords 10 5 "Idle" = List.replicate 5 0 := by decide
  have hz : listAverage (List.replicate 5 (0 : ℚ)) = 0 := by
    norm_num [listAverage, List.sum_replicate]
  have hpc : (serviceAggregate uniformZeroRecords 10 5 "Idle").percent_change
      = percentChange (listAverage (recentCostsOf uniformZeroRecords 10 5 "Idle"))
          (listAverage (priorCostsOf uniformZeroRecords 10 5 "Idle")) := rfl
  have hnone : (serviceAggregate uniformZeroRecords 10 5 "Idle").percent_change = none := by
    rw [hpc, h1, h2, hz, percentChange, if_pos rfl]
  refine ⟨h1, h2, hnone, ?_⟩
  rw [hnone]
  decide

/-- Claim C5 (amended): for every input in which a service has the same
daily cost `C` on each of the `w` days of both windows, its recent average
equals `C`; and whenever `C ≠ 0`, its percent change is defined, equals
`0`, and is classified as no change.  (For `C = 0` the prior average is
zero and the percent change is the undefined new-service value.) -/
theorem uniform_cost_aggregate (records : List DailyCostRecord) (rd : Int)
    (w : Nat) (svc : String) (C : ℚ) (hw : 0 < w)
    (hr : recentCostsOf records rd w svc = List.replicate w C)
    (hp : priorCostsOf records rd w svc = List.replicate w C) :
    (serviceAggregate records rd w svc).recent_average = C ∧
    (C ≠ 0 →
      (serviceAggregate records rd w svc).percent_change = some 0 ∧
      ((serviceAggregate records rd w svc).percent_change).map classifyChange =
        some ChangeDirection.noChange) := by
  have hw0 : (w : ℚ) ≠ 0 := Nat.cast_ne_zero.mpr (Nat.pos_iff_ne_zero.mp hw)
  have havg : listAverage (List.replicate w C) = C := by
    rw [listAverage, List.length_replicate, if_neg (Nat.pos_iff_ne_zero.mp hw),
      List.sum_replicate, nsmul_eq_mul, mul_comm, mul_div_assoc, div_self hw0, mul_one]
  have hra : (serviceAggregate records rd w svc).recent_average = C := by
    show listAverage (recentCostsOf records rd w svc) = C
    rw [hr, havg]
  have hpc : (serviceAggregate records rd w svc).percent_change = percentChange C C := by
    show percentChange (listAverage (recentCostsOf records rd w svc))
        (listAverage (priorCostsOf records rd w svc)) = percentChange C C
    rw [hr, hp, havg]
  refine ⟨hra, fun hC => ?_⟩
  have harith : (C - C) / C * 100 = 0 := by
    rw [sub_self, zero_div, zero_mul]
  rw [hpc, percentChange, if_neg hC, harith]
  refine ⟨rfl, ?_⟩
  norm_num [classifyChange]

/-- Ten days of uniform cost 7 for one service. -/
def uniformSevenRecords : List DailyCostRecord :=
  [⟨1, "Steady", 7⟩, ⟨2, "Steady", 7⟩, ⟨3, "Steady", 7⟩, ⟨4, "Steady", 7⟩,
   ⟨5, "Steady", 7⟩, ⟨6, "Steady", 7⟩, ⟨7, "Steady", 7⟩, ⟨8, "Steady", 7⟩,
   ⟨9, "Steady", 7⟩, ⟨10, "Steady", 7⟩]

/-- Concrete witness for claim C5's (amended) theorem. -/
theorem uniform_cost_aggregate_witness :
    0 < 5 ∧
    recentCostsOf uniformSevenRecords 10 5 "Steady" = List.replicate 5 7 ∧
    priorCostsOf uniformSevenRecords 10 5 "Steady" = List.replicate 5 7 ∧
    (serviceAggregate uniformSevenRecords 10 5 "Steady").recent_average = 7 ∧
    (serviceAggregate uniformSevenRecords 10 5 "Steady").percent_change = some 0 ∧
    ((serviceAggregate uniformSevenRecords 10 5 "Steady").percent_change).map
      classifyChange = some ChangeDirection.noChange := by
  have h1 : recentCostsOf uniformSevenRecords 10 5 "Steady" = List.replicate 5 7 := by
    decide
  have h2 : priorCostsOf uniformSevenRecords 10 5 "Steady" = List.replicate 5 7 := by
    decide
  have h := uniform_cost_aggregate uniformSevenRecords 10 5 "Steady" 7
    (by decide) h1 h2
  exact ⟨by decide, h1, h2, h.1, (h.2 (by decide)).1, (h.2 (by decide)).2⟩

/- ## Claim C6 -/

/-- Claim C6: the recent and prior windows are disjoint, together they cover
exactly the contiguous `2w`-day span ending at the report date, each window
is an interval of exactly `w` days, and the recent window ends at the
report date (the report date is in it and no later day is in either
window).  Every aggregate is computed from costs selected by these two
window predicates. -/
theorem window_invariants (rd : Int) (w : Nat) (hw : 0 < w) :
    (∀ d : Int, (inRecentWindow rd w d && inPriorWindow rd w d) = false) ∧
    (∀ d : Int, (inRecentWindow rd w d || inPriorWindow rd w d) = true ↔
      rd - 2 * w < d ∧ d ≤ rd) ∧
    (∀ d : Int, inRecentWindow rd w d = true ↔ d ∈ Finset.Icc (rd - w + 1) rd) ∧
    (∀ d : Int, inPriorWindow rd w d = true ↔
      d ∈ Finset.Icc (rd - 2 * w + 1) (rd - w)) ∧
    (Finset.Icc (rd - w + 1) rd).card = w ∧
    (Finset.Icc (rd - 2 * w + 1) (rd - w)).card = w ∧
    inRecentWindow rd w rd = true ∧
    inRecentWindow rd w (rd + 1) = false ∧
    inPriorWindow rd w (rd + 1) = false := by
  refine ⟨?_, ?_, ?_, ?_, ?_, ?_, ?_, ?_, ?_⟩
  · intro d
    simp only [inRecentWindow, inPriorWindow, Bool.and_eq_false_iff,
      Bool.and_eq_true, decide_eq_true_eq, Decidable.not_and_iff_or_not,
      Bool.and_eq_false_imp, decide_eq_false_iff_not, not_le, not_lt]
    omega
  · intro d
    simp only [inRecentWindow, inPriorWindow, Bool.or_eq_true, Bool.and_eq_true,
      decide_eq_true_eq]
    omega
  · intro d
    simp only [inRecentWindow, Bool.and_eq_true, decide_eq_true_eq, Finset.mem_Icc]
    omega
  · intro d
    simp only [inPriorWindow, Bool.and_eq_true, decide_eq_true_eq, Finset.mem_Icc]
    omega
  · rw [Int.card_Icc]
    omega
  · rw [Int.card_Icc]
    omega
  · simp only [inRecentWindow, Bool.and_eq_true, decide_eq_true_eq]
    omega
  · simp only [inRecentWindow, Bool.and_eq_false_iff, decide_eq_false_iff_not,
      not_lt, not_le]
    omega
  · simp only [inPriorWindow, Bool.and_eq_false_iff, decide_eq_false_iff_not,
      not_lt, not_le]
    omega

/-- Concrete witness for claim C6's theorem, at report date 10 with a 5-day
window. -/
theorem window_invariants_witness :
    0 < 5 ∧
    ((∀ d : Int, (inRecentWindow 10 5 d && inPriorWindow 10 5 d) = false) ∧
     (∀ d : Int, (inRecentWindow 10 5 d || inPriorWindow 10 5 d) = true ↔
       10 - 2 * (5 : Nat) < d ∧ d ≤ 10) ∧
     (∀ d : Int, inRecentWindow 10 5 d = true ↔
       d ∈ Finset.Icc ((10 : Int) - (5 : Nat) + 1) (10 : Int)) ∧
     (∀ d : Int, inPriorWindow 10 5 d = true ↔
       d ∈ Finset.Icc ((10 : Int) - 2 * (5 : Nat) + 1) ((10 : Int) - (5 : Nat))) ∧
     (Finset.Icc ((10 : Int) - (5 : Nat) + 1) (10 : Int)).card = 5 ∧
     (Finset.Icc ((10 : Int) - 2 * (5 : Nat) + 1) ((10 : Int) - (5 : Nat))).card = 5 ∧
     inRecentWindow 10 5 10 = true ∧
     inRecentWindow 10 5 (10 + 1) = false ∧
     inPriorWindow 10 5 (10 + 1) = false) :=
  ⟨by decide, window_invariants 10 5 (by decide)⟩

/- ## Claim C8 -/

/-- Counterexample to claim C8 as stated: the two app entries do not differ
only in the `--manual` argument, the log file paths and the cron trigger,
because they also carry different app names. -/
theorem config_entries_differ_in_name :
    (awsBillingSummary.name == awsBillingManual.name) = false ∧
    sameExceptArgsLogsCron awsBillingSummary awsBillingManual = false := by
  decide

/-- Claim C8 (amended): the scheduled and the manual invocation run the
identical computation and differ only in that the manual run disables the
scheduled-mode label; in the process configuration the two app entries
invoke the same interpreter and script and differ only in the app name,
the `--manual` argument, the log file paths, and the absence of a cron
trigger. -/
theorem manual_scheduled_same_logic :
    (∀ (records : List DailyCostRecord) (rd : Int) (w : Nat) (t : ℚ),
      (runBillingScript true records rd w t).summary =
        (runBillingScript false records rd w t).summary ∧
      (runBillingScript false records rd w t).scheduledLabel = true ∧
      (runBillingScript true records rd w t).scheduledLabel = false) ∧
    sameExceptNameArgsLogsCron awsBillingSummary awsBillingManual = true ∧
    awsBillingSummary.script = awsBillingManual.script ∧
    awsBillingManual.args = awsBillingSummary.args ++ " --manual" ∧
    (awsBillingSummary.name == awsBillingManual.name) = false ∧
    (awsBillingSummary.log_file == awsBillingManual.log_file) = false ∧
    (awsBillingSummary.error_file == awsBillingManual.error_file) = false ∧
    (awsBillingSummary.out_file == awsBillingManual.out_file) = false ∧
    awsBillingSummary.cron_restart.isSome = true ∧
    awsBillingManual.cron_restart = none :=
  ⟨fun records rd w t => ⟨rfl, rfl, rfl⟩, by decide⟩

/- ## Claim C9 -/

/-- Claim C9: both app entries disable `autorestart`, so under the
supervisor model a process that exits, successfully or not, is never
restarted automatically after its exit; only a cron trigger of the
scheduled entry or an explicit operator action starts a run again. -/
theorem no_autorestart_after_exit :
    awsBillingSummary.autorestart = false ∧
    awsBillingManual.autorestart = false ∧
    autoStartAllowed awsBillingSummary StartCause.autoRestartAfterExit = false ∧
    autoStartAllowed awsBillingManual StartCause.autoRestartAfterExit = false ∧
    autoStartAllowed awsBillingSummary StartCause.cronTrigger = true ∧
    autoStartAllowed awsBillingSummary StartCause.operatorStart = true ∧
    autoStartAllowed awsBillingManual StartCause.operatorStart = true := by
  decide

/- ## Claim C10 -/

/-- Claim C10: only the scheduled entry carries the cron trigger
`0 9 * * *`, each entry runs a single instance, and the manual entry has no
cron trigger, so it can be started by nothing but an explicit operator
action. -/
theorem cron_only_on_scheduled_entry :
    awsBillingSummary.cron_restart = some "0 9 * * *" ∧
    awsBillingManual.cron_restart = none ∧
    awsBillingSummary.instances = 1 ∧
    awsBillingManual.instances = 1 ∧
    autoStartAllowed awsBillingSummary StartCause.cronTrigger = true ∧
    autoStartAllowed awsBillingManual StartCause.cronTrigger = false ∧
    autoStartAllowed awsBillingManual StartCause.autoRestartAfterExit = false ∧
    autoStartAllowed awsBillingManual StartCause.operatorStart = true := by
  decide
